import Mathlib

/-!
Verification development for the metadata-manager repository.

Shallow embedding of:
* the mock object-id generator (`src/metadata_manager/mock/object_id.cpp`),
* the mock metadata catalog (`src/metadata_manager/mock/metadata.cpp`),
* the table-metadata provider (`src/metadata-manager/src/provider/tables_provider.cpp`),
* the JSON index DAO (`src/src/dao/json/index_dao_json.cpp`),
* the PostgreSQL statistics DAO (`src/metadata-manager/src/dao/postgresql/statistics_dao.cpp`).

Backend primitives whose implementations are not part of the provided
sources (the per-entity DAOs behind the provider and the transactional
session manager) are modelled from the specification, as marked in their
doc comments.
-/

/-- Error taxonomy of the repository (`ErrorCode` enum), restricted to the
values used by the embedded code. -/
inductive ErrorCode where
  | OK
  | UNKNOWN
  | INVALID_PARAMETER
  | TABLE_NAME_ALREADY_EXISTS
  | ID_NOT_FOUND
  | NAME_NOT_FOUND
  | NOT_FOUND
  | INTERNAL_ERROR
  | ALREADY_EXISTS
  | NOT_SUPPORTED
  | END_OF_ROW
deriving DecidableEq, Repr

-- ===========================================================================
-- Mock object-id generator (src/metadata_manager/mock/object_id.cpp)
-- ===========================================================================

/-- The reserved invalid object id (`INVALID_OID = 0` in object_id.cpp). -/
def INVALID_OID : Nat := 0

/-- The oid counter file: a flat INI document, i.e. an ordered list of
(key, value) pairs with distinct keys in well-formed files. -/
abbrev OidFile := List (String × Nat)

/-- `pt.get_optional<ObjectIdType>(key)` on a flat ini ptree: value of the
first entry with the given key, if any. -/
def iniGet (pt : OidFile) (key : String) : Option Nat :=
  (pt.find? (fun e => e.1 = key)).map (fun e => e.2)

/-- `pt.put(key, v)` on a flat ini ptree: replace the value of the first
entry with the given key, or append a new entry. -/
def iniPut (pt : OidFile) (key : String) (v : Nat) : OidFile :=
  match pt with
  | [] => [(key, v)]
  | e :: rest => if e.1 = key then (key, v) :: rest else e :: iniPut rest key v

/-- `ObjectId::generate(table_name)` from object_id.cpp.

The persistent counter file is threaded explicitly; `readFails` and
`writeFails` model an exception thrown by `read_ini` resp. `write_ini`
(both are caught and turn into a return of `INVALID_OID`; the on-disk file
is modelled as unchanged when the write fails).  Returns the issued id and
the resulting persistent file. -/
def ObjectId.generate (readFails writeFails : Bool) (table_name : String)
    (file : OidFile) : Nat × OidFile :=
  if readFails then
    (INVALID_OID, file)
  else
    let pt := file
    let oid : Nat :=
      match iniGet pt table_name with
      | some v => v
      | none => 0
    let pt := iniPut pt table_name (oid + 1)
    if writeFails then (INVALID_OID, file) else (oid + 1, pt)

-- Basic facts about the ini map model.

theorem iniGet_iniPut_same (pt : OidFile) (k : String) (v : Nat) :
    iniGet (iniPut pt k v) k = some v := by
  induction pt with
  | nil => simp [iniPut, iniGet]
  | cons e rest ih =>
      by_cases h : e.1 = k
      · simp [iniPut, iniGet, h]
      · simp [iniPut, iniGet, List.find?, h] at ih ⊢
        exact ih

theorem iniGet_iniPut_other (pt : OidFile) (k k' : String) (v : Nat)
    (hne : k' ≠ k) : iniGet (iniPut pt k v) k' = iniGet pt k' := by
  have hkk' : ¬(k = k') := fun h => hne h.symm
  induction pt with
  | nil => simp [iniPut, iniGet, List.find?, hkk']
  | cons e rest ih =>
      by_cases h : e.1 = k
      · simp [iniPut, iniGet, List.find?, h, hkk']
      · by_cases h' : e.1 = k'
        · simp [iniPut, iniGet, List.find?, h, h', hne]
        · simpa [iniPut, iniGet, List.find?, h, h'] using ih

/-- C6: whenever reading or writing the persistent counter file fails,
`ObjectId::generate` returns the reserved invalid id 0 (and, being modelled
as a total function over caught exceptions, does not throw). -/
theorem generate_io_failure_returns_invalid (readFails writeFails : Bool)
    (table_name : String) (file : OidFile)
    (h : readFails = true ∨ writeFails = true) :
    (ObjectId.generate readFails writeFails table_name file).1 = INVALID_OID := by
  rcases h with h | h <;> subst h
  · simp [ObjectId.generate]
  · cases readFails <;> simp [ObjectId.generate]

/-- Witness for C6 at a concrete input. -/
theorem generate_io_failure_returns_invalid_witness :
    (ObjectId.generate false true "tables" [("tables", 5)]).1 = INVALID_OID :=
  generate_io_failure_returns_invalid false true "tables" [("tables", 5)]
    (Or.inr rfl)

theorem generate_unseen (table_name : String) (file : OidFile)
    (h : iniGet file table_name = none) :
    (ObjectId.generate false false table_name file).1 = 1 := by
  simp [ObjectId.generate, h]

theorem generate_seen (table_name : String) (file : OidFile) (m : Nat)
    (h : iniGet file table_name = some m) :
    (ObjectId.generate false false table_name file).1 = m + 1 := by
  simp [ObjectId.generate, h]

theorem generate_persists (table_name : String) (file : OidFile) :
    iniGet (ObjectId.generate false false table_name file).2 table_name
      = some (ObjectId.generate false false table_name file).1 := by
  cases h : iniGet file table_name <;>
    simp [ObjectId.generate, h, iniGet_iniPut_same]

theorem generate_frame (table_name : String) (file : OidFile) (k : String)
    (hk : k ≠ table_name) :
    iniGet (ObjectId.generate false false table_name file).2 k
      = iniGet file k := by
  cases h : iniGet file table_name <;>
    simp [ObjectId.generate, h, iniGet_iniPut_other _ _ _ _ hk]

theorem generate_generate (table_name : String) (file : OidFile) :
    (ObjectId.generate false false table_name
        (ObjectId.generate false false table_name file).2).1
      = (ObjectId.generate false false table_name file).1 + 1 :=
  generate_seen _ _ _ (generate_persists table_name file)

/-- C7: a successful `ObjectId::generate` issues 1 for a name not yet in the
counter file and `m + 1` when the persisted counter is `m` (hence successive
successful calls with one name are strictly increasing and a restart, which
re-reads the file, continues from the persisted value); the issued id is
persisted in the returned file before the call returns; counters of other
names are untouched. -/
theorem generate_counter_spec (table_name : String) (file : OidFile) :
    (iniGet file table_name = none →
      (ObjectId.generate false false table_name file).1 = 1)
    ∧ (∀ m, iniGet file table_name = some m →
      (ObjectId.generate false false table_name file).1 = m + 1)
    ∧ iniGet (ObjectId.generate false false table_name file).2 table_name
        = some (ObjectId.generate false false table_name file).1
    ∧ (∀ k, k ≠ table_name →
      iniGet (ObjectId.generate false false table_name file).2 k
        = iniGet file k) :=
  ⟨generate_unseen table_name file, generate_seen table_name file,
   generate_persists table_name file,
   fun k hk => generate_frame table_name file k hk⟩

/-- Witness for C7 at concrete inputs: first id for an unseen name is 1, a
persisted counter 5 yields 6, the result is persisted, and the other name's
counter is unchanged. -/
theorem generate_counter_spec_witness :
    (ObjectId.generate false false "tables" [("columns", 5)]).1 = 1
    ∧ (ObjectId.generate false false "columns" [("columns", 5)]).1 = 6
    ∧ iniGet (ObjectId.generate false false "columns" [("columns", 5)]).2
        "columns" = some 6
    ∧ iniGet (ObjectId.generate false false "tables" [("columns", 5)]).2
        "columns" = some 5 := by
  refine ⟨?_, ?_, ?_, ?_⟩
  · exact (generate_counter_spec "tables" [("columns", 5)]).1 (by decide)
  · exact (generate_counter_spec "columns" [("columns", 5)]).2.1 5 (by decide)
  · have h := (generate_counter_spec "columns" [("columns", 5)]).2.2.1
    have h6 : (ObjectId.generate false false "columns" [("columns", 5)]).1 = 6 :=
      (generate_counter_spec "columns" [("columns", 5)]).2.1 5 (by decide)
    rw [h6] at h
    exact h
  · exact (generate_counter_spec "tables" [("columns", 5)]).2.2.2 "columns"
      (by decide)

-- ===========================================================================
-- Mock metadata catalog (src/metadata_manager/mock/metadata.cpp)
-- ===========================================================================

/-- A metadata object handled by the mock `Metadata` class: the two fields
`Metadata::add` writes (`FORMAT_VERSION_KEY`, `ID_KEY`) are modelled
explicitly; all remaining content of the ptree is opaque `payload`. -/
structure MockObj where
  format_version : Option Nat
  id : Option Nat
  payload : String
deriving DecidableEq, Repr

/-- State owned by a mock `Metadata` instance: the children of the root node
of `metadata_` (the in-memory catalog tree, persisted by `Metadata::save`)
together with the object-id counter file used by `ObjectId::generate`. -/
structure MockState where
  metadata : List MockObj
  oidFile : OidFile
deriving DecidableEq, Repr

/-- `Metadata::add(object, object_id)` from mock/metadata.cpp.

`fill` is the virtual `fill_parameters` hook of the concrete subclass
(not part of the provided sources, kept abstract); `generate_object_id` is
modelled from the spec as a successful `ObjectId::generate` call for this
instance's table name.  Mirrors the source order: stamp `format_version`,
generate and stamp the object id (consuming it from the generator), then
validate; on validation failure the error is returned with the catalog tree
untouched.  On success the object is appended to the root node and saved
(the `save` result is ignored by the source).  Returns
(error, new state, caller's object after mutation, out `object_id`). -/
def Metadata.add (fill : MockObj → ErrorCode) (format_version : Nat)
    (tablename : String) (st : MockState) (object : MockObj) :
    ErrorCode × MockState × MockObj × Nat :=
  let object := { object with format_version := some format_version }
  let gen := ObjectId.generate false false tablename st.oidFile
  let new_id := gen.1
  let st := { st with oidFile := gen.2 }
  let object := { object with id := some new_id }
  let e := fill object
  if e ≠ ErrorCode.OK then
    (e, st, object, new_id)
  else
    (ErrorCode.OK, { st with metadata := st.metadata ++ [object] }, object,
     new_id)

/-- C10: the mock `Metadata::add` stamps `format_version` and a freshly
generated id into the caller's object, consuming one id from the generator,
before validation runs; when validation fails it returns the validation
error with the stored catalog unchanged, while the caller's object is
already mutated and the consumed id is not reissued (the next generated id
is strictly larger). -/
theorem mock_add_validation_failure (fill : MockObj → ErrorCode)
    (format_version : Nat) (tablename : String) (st : MockState)
    (object : MockObj)
    (hfill : fill { object with
        format_version := some format_version,
        id := some (ObjectId.generate false false tablename st.oidFile).1 }
      ≠ ErrorCode.OK) :
    Metadata.add fill format_version tablename st object
      = (fill { object with
            format_version := some format_version,
            id := some (ObjectId.generate false false tablename st.oidFile).1 },
         { st with
            oidFile := (ObjectId.generate false false tablename st.oidFile).2 },
         { object with
            format_version := some format_version,
            id := some (ObjectId.generate false false tablename st.oidFile).1 },
         (ObjectId.generate false false tablename st.oidFile).1)
    ∧ (ObjectId.generate false false tablename
          (ObjectId.generate false false tablename st.oidFile).2).1
        = (ObjectId.generate false false tablename st.oidFile).1 + 1 := by
  constructor
  · simp only [Metadata.add, hfill, if_pos, ne_eq, not_false_iff, ite_true]
  · exact generate_generate tablename st.oidFile

/-- Witness for C10: a validator rejecting every object, applied to a
concrete state and object. -/
theorem mock_add_validation_failure_witness :
    Metadata.add (fun _ => ErrorCode.INVALID_PARAMETER) 1 "tables"
        ⟨[], []⟩ ⟨none, none, "t1"⟩
      = (ErrorCode.INVALID_PARAMETER, ⟨[], [("tables", 1)]⟩,
         ⟨some 1, some 1, "t1"⟩, 1)
    ∧ (ObjectId.generate false false "tables"
          (ObjectId.generate false false "tables" ([] : OidFile)).2).1
        = (ObjectId.generate false false "tables" ([] : OidFile)).1 + 1 := by
  have h := mock_add_validation_failure (fun _ => ErrorCode.INVALID_PARAMETER)
    1 "tables" ⟨[], []⟩ ⟨none, none, "t1"⟩ (by decide)
  exact h

-- ===========================================================================
-- Tables provider (src/metadata-manager/src/provider/tables_provider.cpp)
-- ===========================================================================

/-- A column metadata object as read by `TablesProvider::fill_parameters`:
the four ptree fields the provider accesses, each optional. -/
structure ColumnMeta where
  name : Option String
  ordinal_position : Option Int
  data_type_id : Option Int
  nullable : Option String
deriving DecidableEq, Repr

/-- The table metadata tree passed to `add_table_metadata`: its `name` field
and the children of the `Tables::COLUMNS_NODE` node. -/
structure TableObject where
  name : Option String
  columns : List ColumnMeta
deriving DecidableEq, Repr

/-- A row of the table metadata table. -/
structure TableRow where
  id : Nat
  name : String
deriving DecidableEq, Repr

/-- A row of the column metadata table: the owning table id plus the column
fields. -/
structure ColumnRow where
  table_id : Nat
  column : ColumnMeta
deriving DecidableEq, Repr

/-- The stored metadata repository (table rows and column rows). -/
structure DB where
  tables : List TableRow
  columns : List ColumnRow
deriving DecidableEq, Repr

/-- A transaction-control call recorded by the session manager. -/
inductive SessionEvent where
  | beginTx
  | commitTx
  | rollbackTx
deriving DecidableEq, Repr

/-- Modelled from the spec: the session manager behind the provider
(`DBSessionManager`, spec sections 4.3 and 4.5).  `committed` is the durable
state, `current` the uncommitted working state the DAOs mutate; `trace`
records the transaction-control calls issued.  `start_transaction`,
`commit` and `rollback` themselves succeed (document-backend semantics:
commit replaces the durable state, rollback discards the working state). -/
structure Session where
  committed : DB
  current : DB
  trace : List SessionEvent
deriving DecidableEq, Repr

def Session.start_transaction (s : Session) : Session :=
  { s with current := s.committed, trace := s.trace ++ [SessionEvent.beginTx] }

def Session.commit (s : Session) : Session :=
  { s with committed := s.current, trace := s.trace ++ [SessionEvent.commitTx] }

def Session.rollback (s : Session) : Session :=
  { s with current := s.committed, trace := s.trace ++ [SessionEvent.rollbackTx] }

/-- A lookup key for table metadata: `Tables::ID` or `Tables::NAME` with the
corresponding value; `other` stands for any other key string. -/
inductive TableKey where
  | byId (id : Nat)
  | byName (name : String)
  | other
deriving DecidableEq, Repr

/-- Modelled from the spec: `TablesDAO::select_table_metadata(key, value)`
(spec section 4.4, select-by-key): the first row matching the key, or the
key's not-found error when no row matches. -/
def select_table_metadata (db : DB) (key : TableKey) :
    Except ErrorCode TableRow :=
  match key with
  | TableKey.byId i =>
      match db.tables.find? (fun r => r.id = i) with
      | some r => Except.ok r
      | none => Except.error ErrorCode.ID_NOT_FOUND
  | TableKey.byName n =>
      match db.tables.find? (fun r => r.name = n) with
      | some r => Except.ok r
      | none => Except.error ErrorCode.NAME_NOT_FOUND
  | TableKey.other => Except.error ErrorCode.NOT_SUPPORTED

/-- Modelled from the spec: `TablesDAO::delete_table_metadata(key, value)`:
deletes the matching table rows and reports the (first) removed row's id;
when nothing matches, the affected-row count is outside the expected range
and the key's not-found error is returned (spec section 4.4). -/
def delete_table_metadata (db : DB) (key : TableKey) :
    Except ErrorCode (DB × Nat) :=
  match key with
  | TableKey.byId i =>
      match db.tables.find? (fun r => r.id = i) with
      | some r =>
          Except.ok
            ({ db with tables := db.tables.filter (fun r => ¬ r.id = i) }, r.id)
      | none => Except.error ErrorCode.ID_NOT_FOUND
  | TableKey.byName n =>
      match db.tables.find? (fun r => r.name = n) with
      | some r =>
          Except.ok
            ({ db with tables := db.tables.filter (fun r => ¬ r.name = n) }, r.id)
      | none => Except.error ErrorCode.NAME_NOT_FOUND
  | TableKey.other => Except.error ErrorCode.NOT_SUPPORTED

/-- Modelled from the spec: `ColumnsDAO::select_column_metadata(TABLE_ID, id)`
returns the column rows of the table; zero matching rows is reported as the
DAO-level `INVALID_PARAMETER` (spec section 4.4 and C5's sources). -/
def select_column_metadata (db : DB) (table_id : Nat) :
    Except ErrorCode (List ColumnMeta) :=
  let cs := (db.columns.filter (fun c => c.table_id = table_id)).map
    (fun c => c.column)
  if cs.isEmpty then Except.error ErrorCode.INVALID_PARAMETER
  else Except.ok cs

/-- Modelled from the spec: `ColumnsDAO::delete_column_metadata(TABLE_ID, id)`
deletes all column rows of the table; zero affected rows is
`INVALID_PARAMETER` (spec section 4.4: at least one row expected for a
delete-by-parent). -/
def delete_column_metadata (db : DB) (table_id : Nat) : Except ErrorCode DB :=
  if db.columns.any (fun c => c.table_id = table_id) then
    Except.ok
      { db with columns := db.columns.filter (fun c => ¬ c.table_id = table_id) }
  else Except.error ErrorCode.INVALID_PARAMETER

/-- The per-column checks of `TablesProvider::fill_parameters` (source lines
438-477).  `datatypeExists` models `DataTypesProvider::get_datatype_metadata`
succeeding for the given data-type id (the data-types provider is reference
data outside the provided sources). -/
def checkColumn (datatypeExists : Int → Bool) (c : ColumnMeta) : ErrorCode :=
  match c.name with
  | none => ErrorCode.INVALID_PARAMETER
  | some n =>
    if n = "" then ErrorCode.INVALID_PARAMETER
    else
      match c.ordinal_position with
      | none => ErrorCode.INVALID_PARAMETER
      | some p =>
        if p ≤ 0 then ErrorCode.INVALID_PARAMETER
        else
          match c.data_type_id with
          | none => ErrorCode.INVALID_PARAMETER
          | some d =>
            if d < 0 then ErrorCode.INVALID_PARAMETER
            else if ¬ datatypeExists d then ErrorCode.INVALID_PARAMETER
            else
              match c.nullable with
              | none => ErrorCode.INVALID_PARAMETER
              | some nl =>
                if nl = "" then ErrorCode.INVALID_PARAMETER else ErrorCode.OK

/-- The column loop of `fill_parameters`: stops at the first failing column. -/
def checkColumns (datatypeExists : Int → Bool) : List ColumnMeta → ErrorCode
  | [] => ErrorCode.OK
  | c :: rest =>
    match checkColumn datatypeExists c with
    | ErrorCode.OK => checkColumns datatypeExists rest
    | e => e

/-- `TablesProvider::fill_parameters` (source lines 418-481). -/
def fill_parameters (datatypeExists : Int → Bool) (table : TableObject) :
    ErrorCode :=
  match table.name with
  | none => ErrorCode.INVALID_PARAMETER
  | some n =>
    if n = "" then ErrorCode.INVALID_PARAMETER
    else checkColumns datatypeExists table.columns

/-- Result of a provider operation: the returned `ErrorCode`, the session
after the call and the out parameter `table_id` (0 when the source leaves
the out parameter unset). -/
structure ProviderResult where
  error : ErrorCode
  session : Session
  table_id : Nat
deriving DecidableEq, Repr

/-- The column-insert loop of `add_table_metadata` (source lines 119-131).
`colErr i` injects the error code returned by the i-th
`ColumnsDAO::insert_one_column_metadata` call (`none` stands for `OK`); on
`OK` the DAO has appended the row to the working state, otherwise the
transaction is rolled back and the DAO's error returned. -/
def insert_columns (colErr : Nat → Option ErrorCode) (table_id : Nat) :
    List ColumnMeta → Nat → Session → ErrorCode × Session
  | [], _, s => (ErrorCode.OK, s)
  | c :: rest, i, s =>
    if (colErr i).getD ErrorCode.OK ≠ ErrorCode.OK
    then ((colErr i).getD ErrorCode.OK, s.rollback)
    else
      insert_columns colErr table_id rest (i + 1)
        { s with current :=
            { s.current with columns := s.current.columns ++ [⟨table_id, c⟩] } }

/-- `TablesProvider::add_table_metadata` (source lines 73-136).

DAO outcomes are injected: `tableInsert = some e` makes
`TablesDAO::insert_table_metadata` fail with `e`; `tableInsert = none` makes
it succeed, appending a row carrying the fresh backend id `new_id`; `colErr`
injects the per-column insert outcomes.  After a failed table insert the
provider rolls back and re-reads by the table's name to report
`TABLE_NAME_ALREADY_EXISTS` when a row with that name exists (fetched rows
always carry an id in this model, so the source's `if (id)` test succeeds
whenever the re-read does). -/
def add_table_metadata (datatypeExists : Int → Bool)
    (tableInsert : Option ErrorCode) (colErr : Nat → Option ErrorCode)
    (new_id : Nat) (object : TableObject) (s : Session) : ProviderResult :=
  match fill_parameters datatypeExists object with
  | ErrorCode.OK =>
    let s := s.start_transaction
    match tableInsert with
    | some e =>
        let s := s.rollback
        match select_table_metadata s.current
            (TableKey.byName (object.name.getD "")) with
        | Except.ok _row => ⟨ErrorCode.TABLE_NAME_ALREADY_EXISTS, s, 0⟩
        | Except.error _ => ⟨e, s, 0⟩
    | none =>
        let table_id := new_id
        let s := { s with current :=
          { s.current with
              tables := s.current.tables ++ [⟨table_id, object.name.getD ""⟩] } }
        let r := insert_columns colErr table_id object.columns 0 s
        if r.1 = ErrorCode.OK then ⟨ErrorCode.OK, r.2.commit, table_id⟩
        else ⟨r.1, r.2, table_id⟩
  | e => ⟨e, s, 0⟩

/-- `TablesProvider::get_column_metadata(table_id, tables)` (source lines
397-411): looks up the table's columns and attaches the result as the
`columns` subtree; the DAO-level zero-row `INVALID_PARAMETER` is converted
into success with the (empty) subtree attached. -/
def get_column_metadata (db : DB) (table_id : Nat) :
    Except ErrorCode (List ColumnMeta) :=
  match select_column_metadata db table_id with
  | Except.ok cs => Except.ok cs
  | Except.error ErrorCode.INVALID_PARAMETER => Except.ok []
  | Except.error e => Except.error e

/-- The result tree of a single-table `get_table_metadata` call: the fetched
table row with its attached `columns` subtree. -/
structure TableResult where
  row : TableRow
  columns : List ColumnMeta
deriving DecidableEq, Repr

/-- `TablesProvider::get_table_metadata(key, value, object)` (source lines
147-172).  For a name key, `get_all_column_metadata` (source lines 355-388)
iterates the fields of the single fetched object, reads its `id` field and
attaches that table's columns; fetched rows always carry their id here, so
this is modelled as attaching the columns of the fetched row's id. -/
def get_table_metadata (s : Session) (key : TableKey) :
    Except ErrorCode TableResult :=
  match select_table_metadata s.current key with
  | Except.error e => Except.error e
  | Except.ok row =>
    match key with
    | TableKey.byId i =>
        match get_column_metadata s.current i with
        | Except.ok cs => Except.ok ⟨row, cs⟩
        | Except.error e => Except.error e
    | TableKey.byName _ =>
        match get_column_metadata s.current row.id with
        | Except.ok cs => Except.ok ⟨row, cs⟩
        | Except.error e => Except.error e
    | TableKey.other => Except.error ErrorCode.INVALID_PARAMETER

/-- `TablesProvider::remove_table_metadata(key, value, table_id)` (source
lines 308-345): inside a transaction, delete the table row, then delete all
of its columns; commit only when both deletes succeed, otherwise roll back
and return the failing step's error. -/
def remove_table_metadata (s : Session) (key : TableKey) : ProviderResult :=
  let s := s.start_transaction
  match delete_table_metadata s.current key with
  | Except.error e => ⟨e, s.rollback, 0⟩
  | Except.ok (db, table_id) =>
    let s := { s with current := db }
    match delete_column_metadata s.current table_id with
    | Except.ok db2 => ⟨ErrorCode.OK, ({ s with current := db2 }).commit, table_id⟩
    | Except.error e => ⟨e, s.rollback, table_id⟩

-- Validation lemmas for fill_parameters.

/-- Failure of one of the per-column checks that C4 lists. -/
def BadColumn (datatypeExists : Int → Bool) (c : ColumnMeta) : Prop :=
  c.name = none ∨ c.name = some "" ∨ c.ordinal_position = none
  ∨ (∃ p, c.ordinal_position = some p ∧ p ≤ 0)
  ∨ c.data_type_id = none
  ∨ (∃ d, c.data_type_id = some d ∧ (d < 0 ∨ datatypeExists d = false))
  ∨ c.nullable = none

/-- Failure of one of the validation checks that C4 lists. -/
def BadTable (datatypeExists : Int → Bool) (t : TableObject) : Prop :=
  t.name = none ∨ t.name = some ""
  ∨ ∃ c ∈ t.columns, BadColumn datatypeExists c

theorem checkColumn_ok_or_invalid (datatypeExists : Int → Bool)
    (c : ColumnMeta) :
    checkColumn datatypeExists c = ErrorCode.OK
    ∨ checkColumn datatypeExists c = ErrorCode.INVALID_PARAMETER := by
  unfold checkColumn
  repeat' first
    | (left ; rfl)
    | (right ; rfl)
    | split

theorem checkColumn_bad (datatypeExists : Int → Bool) (c : ColumnMeta)
    (h : BadColumn datatypeExists c) :
    checkColumn datatypeExists c = ErrorCode.INVALID_PARAMETER := by
  rcases h with h | h | h | ⟨p, hp, hple⟩ | h | ⟨d, hd, hdbad⟩ | h
  · simp [checkColumn, h]
  · simp [checkColumn, h]
  · cases hn : c.name <;> simp [checkColumn, hn, h]
  · cases hn : c.name <;> simp [checkColumn, hn, hp, hple]
  · cases hn : c.name <;> cases hop : c.ordinal_position <;>
      simp [checkColumn, hn, hop, h]
  · rcases hdbad with hlt | hfalse
    · cases hn : c.name <;> cases hop : c.ordinal_position <;>
        simp [checkColumn, hn, hop, hd, hlt]
    · cases hn : c.name <;> cases hop : c.ordinal_position <;>
        simp [checkColumn, hn, hop, hd, hfalse]
  · cases hn : c.name <;> cases hop : c.ordinal_position <;>
      cases hdi : c.data_type_id <;> simp [checkColumn, hn, hop, hdi, h]

theorem checkColumns_bad (datatypeExists : Int → Bool)
    (cols : List ColumnMeta) (h : ∃ c ∈ cols, BadColumn datatypeExists c) :
    checkColumns datatypeExists cols = ErrorCode.INVALID_PARAMETER := by
  induction cols with
  | nil => simp at h
  | cons c rest ih =>
      obtain ⟨c', hmem, hbad⟩ := h
      rcases List.mem_cons.mp hmem with hc | hc
      · subst hc
        simp [checkColumns, checkColumn_bad datatypeExists c' hbad]
      · rcases checkColumn_ok_or_invalid datatypeExists c with hok | hip
        · simpa [checkColumns, hok] using ih ⟨c', hc, hbad⟩
        · simp [checkColumns, hip]

theorem fill_parameters_bad (datatypeExists : Int → Bool) (t : TableObject)
    (h : BadTable datatypeExists t) :
    fill_parameters datatypeExists t = ErrorCode.INVALID_PARAMETER := by
  rcases h with h | h | h
  · simp [fill_parameters, h]
  · simp [fill_parameters, h]
  · cases hn : t.name with
    | none => simp [fill_parameters, hn]
    | some n =>
        by_cases hne : n = ""
        · simp [fill_parameters, hn, hne]
        · simp [fill_parameters, hn, hne, checkColumns_bad datatypeExists _ h]

/-- C1 helper: the first non-OK outcome injected into the column-insert loop. -/
def firstColError (colErr : Nat → Option ErrorCode) :
    Nat → List ColumnMeta → Option ErrorCode
  | _, [] => none
  | i, _ :: rest =>
    if (colErr i).getD ErrorCode.OK ≠ ErrorCode.OK
    then some ((colErr i).getD ErrorCode.OK)
    else firstColError colErr (i + 1) rest

theorem firstColError_ne_ok (colErr : Nat → Option ErrorCode) :
    ∀ (cols : List ColumnMeta) (i : Nat) (e : ErrorCode),
      firstColError colErr i cols = some e → e ≠ ErrorCode.OK := by
  intro cols
  induction cols with
  | nil => intro i e h; simp [firstColError] at h
  | cons c rest ih =>
      intro i e h
      by_cases hc : (colErr i).getD ErrorCode.OK ≠ ErrorCode.OK
      · simp only [firstColError] at h
        rw [if_pos hc] at h
        injection h with h
        exact h ▸ hc
      · simp only [firstColError] at h
        rw [if_neg hc] at h
        exact ih (i + 1) e h

theorem insert_columns_fail (colErr : Nat → Option ErrorCode)
    (table_id : Nat) :
    ∀ (cols : List ColumnMeta) (i : Nat) (s : Session) (e : ErrorCode),
      firstColError colErr i cols = some e →
      insert_columns colErr table_id cols i s
        = (e, ⟨s.committed, s.committed,
            s.trace ++ [SessionEvent.rollbackTx]⟩) := by
  intro cols
  induction cols with
  | nil => intro i s e h; simp [firstColError] at h
  | cons c rest ih =>
      intro i s e h
      by_cases hc : (colErr i).getD ErrorCode.OK ≠ ErrorCode.OK
      · simp only [firstColError] at h
        rw [if_pos hc] at h
        injection h with h
        simp only [insert_columns]
        rw [if_pos hc, h]
        rfl
      · simp only [firstColError] at h
        rw [if_neg hc] at h
        simp only [insert_columns]
        rw [if_neg hc]
        exact ih (i + 1) _ e h

/-- C4: when any of the listed validation checks on the table or one of its
columns fails, `add_table_metadata` returns `INVALID_PARAMETER` with the
session untouched: no transaction-control call is issued and neither the
durable nor the working state changes. -/
theorem add_table_validation_failure (datatypeExists : Int → Bool)
    (tableInsert : Option ErrorCode) (colErr : Nat → Option ErrorCode)
    (new_id : Nat) (object : TableObject) (s : Session)
    (h : BadTable datatypeExists object) :
    add_table_metadata datatypeExists tableInsert colErr new_id object s
      = ⟨ErrorCode.INVALID_PARAMETER, s, 0⟩ := by
  have hf := fill_parameters_bad datatypeExists object h
  simp [add_table_metadata, hf]

/-- Witness for C4: a column whose nullability flag is absent, rejected with
no transaction and no state change. -/
theorem add_table_validation_failure_witness :
    add_table_metadata (fun _ => true) none (fun _ => none) 1
        ⟨some "t1", [⟨some "a", some 1, some 1, none⟩]⟩
        ⟨⟨[], []⟩, ⟨[], []⟩, []⟩
      = ⟨ErrorCode.INVALID_PARAMETER, ⟨⟨[], []⟩, ⟨[], []⟩, []⟩, 0⟩ :=
  add_table_validation_failure (fun _ => true) none (fun _ => none) 1
    ⟨some "t1", [⟨some "a", some 1, some 1, none⟩]⟩ ⟨⟨[], []⟩, ⟨[], []⟩, []⟩
    (Or.inr (Or.inr ⟨⟨some "a", some 1, some 1, none⟩, by simp,
      by simp [BadColumn]⟩))

/-- C1: when validation passes, the table-row insert succeeds and the insert
of some child column fails, `add_table_metadata` rolls the whole transaction
back — the durable state is exactly the original one, so zero columns and no
table row are persisted for this table — and returns the failing column
DAO's error. -/
theorem add_table_column_insert_failure (datatypeExists : Int → Bool)
    (colErr : Nat → Option ErrorCode) (new_id : Nat) (object : TableObject)
    (s : Session) (e : ErrorCode)
    (hfill : fill_parameters datatypeExists object = ErrorCode.OK)
    (hfail : firstColError colErr 0 object.columns = some e) :
    add_table_metadata datatypeExists none colErr new_id object s
      = ⟨e, ⟨s.committed, s.committed,
          s.trace ++ [SessionEvent.beginTx, SessionEvent.rollbackTx]⟩,
         new_id⟩ := by
  have hne := firstColError_ne_ok colErr object.columns 0 e hfail
  simp only [add_table_metadata, hfill, Session.start_transaction]
  rw [insert_columns_fail colErr new_id object.columns 0 _ e hfail]
  simp [hne]

/-- Witness for C1: three valid columns whose second insert fails; the
result is the column DAO's error, an empty durable state and a
begin/rollback trace. -/
theorem add_table_column_insert_failure_witness :
    add_table_metadata (fun _ => true) none
        (fun i => if i = 1 then some ErrorCode.INTERNAL_ERROR else none) 7
        ⟨some "t1", [⟨some "a", some 1, some 1, some "NO"⟩,
                     ⟨some "b", some 2, some 1, some "NO"⟩,
                     ⟨some "c", some 3, some 1, some "NO"⟩]⟩
        ⟨⟨[], []⟩, ⟨[], []⟩, []⟩
      = ⟨ErrorCode.INTERNAL_ERROR,
         ⟨⟨[], []⟩, ⟨[], []⟩, [SessionEvent.beginTx, SessionEvent.rollbackTx]⟩,
         7⟩ :=
  add_table_column_insert_failure (fun _ => true)
    (fun i => if i = 1 then some ErrorCode.INTERNAL_ERROR else none) 7
    ⟨some "t1", [⟨some "a", some 1, some 1, some "NO"⟩,
                 ⟨some "b", some 2, some 1, some "NO"⟩,
                 ⟨some "c", some 3, some 1, some "NO"⟩]⟩
    ⟨⟨[], []⟩, ⟨[], []⟩, []⟩ ErrorCode.INTERNAL_ERROR (by decide) (by decide)

/-- C2: when validation passes and the table-row insert itself fails with
`e`, `add_table_metadata` rolls back — the durable state is unchanged — and
re-reads by the table's name over the rolled-back state: if a row with that
name already exists the call returns `TABLE_NAME_ALREADY_EXISTS`, otherwise
it returns the original insert failure `e`. -/
theorem add_table_insert_failure (datatypeExists : Int → Bool)
    (colErr : Nat → Option ErrorCode) (new_id : Nat) (object : TableObject)
    (s : Session) (e : ErrorCode) (nm : String)
    (hname : object.name = some nm)
    (hfill : fill_parameters datatypeExists object = ErrorCode.OK) :
    (add_table_metadata datatypeExists (some e) colErr new_id object s).session
      = ⟨s.committed, s.committed,
         s.trace ++ [SessionEvent.beginTx, SessionEvent.rollbackTx]⟩
    ∧ (∀ row, s.committed.tables.find? (fun r => r.name = nm) = some row →
        (add_table_metadata datatypeExists (some e) colErr new_id object
            s).error = ErrorCode.TABLE_NAME_ALREADY_EXISTS)
    ∧ (s.committed.tables.find? (fun r => r.name = nm) = none →
        (add_table_metadata datatypeExists (some e) colErr new_id object
            s).error = e) := by
  refine ⟨?_, ?_, ?_⟩
  · cases hf : s.committed.tables.find? (fun r => r.name = nm) <;>
      simp [add_table_metadata, hfill, hname, select_table_metadata,
        Session.start_transaction, Session.rollback, hf]
  · intro row hf
    simp [add_table_metadata, hfill, hname, select_table_metadata,
      Session.start_transaction, Session.rollback, hf]
  · intro hf
    simp [add_table_metadata, hfill, hname, select_table_metadata,
      Session.start_transaction, Session.rollback, hf]

/-- Witness for C2: inserting over a stored table named "t1" with a failing
table insert; the durable state is untouched and the error is overridden to
`TABLE_NAME_ALREADY_EXISTS`. -/
theorem add_table_insert_failure_witness :
    (add_table_metadata (fun _ => true) (some ErrorCode.INTERNAL_ERROR)
        (fun _ => none) 7 ⟨some "t1", []⟩
        ⟨⟨[⟨1, "t1"⟩], []⟩, ⟨[⟨1, "t1"⟩], []⟩, []⟩).session
      = ⟨⟨[⟨1, "t1"⟩], []⟩, ⟨[⟨1, "t1"⟩], []⟩,
         [SessionEvent.beginTx, SessionEvent.rollbackTx]⟩
    ∧ (add_table_metadata (fun _ => true) (some ErrorCode.INTERNAL_ERROR)
        (fun _ => none) 7 ⟨some "t1", []⟩
        ⟨⟨[⟨1, "t1"⟩], []⟩, ⟨[⟨1, "t1"⟩], []⟩, []⟩).error
      = ErrorCode.TABLE_NAME_ALREADY_EXISTS := by
  have h := add_table_insert_failure (fun _ => true) (fun _ => none) 7
    ⟨some "t1", []⟩ ⟨⟨[⟨1, "t1"⟩], []⟩, ⟨[⟨1, "t1"⟩], []⟩, []⟩
    ErrorCode.INTERNAL_ERROR "t1" rfl (by decide)
  exact ⟨h.1, h.2.1 ⟨1, "t1"⟩ (by decide)⟩

/-- C5: whenever the table row is found by id, `get_table_metadata` returns
`OK` with the table's columns attached — in particular, when the column
lookup matches zero rows (the DAO's `INVALID_PARAMETER`), the result is
still `OK` with an empty columns subtree, never an error. -/
theorem get_table_found (s : Session) (tid : Nat) (row : TableRow)
    (h : s.current.tables.find? (fun r => r.id = tid) = some row) :
    get_table_metadata s (TableKey.byId tid)
      = Except.ok ⟨row, (s.current.columns.filter
          (fun c => c.table_id = tid)).map (fun c => c.column)⟩ := by
  by_cases hc : ((s.current.columns.filter (fun c => c.table_id = tid)).map
      (fun c => c.column)).isEmpty
  · have hnil : (s.current.columns.filter (fun c => c.table_id = tid)).map
        (fun c => c.column) = [] := by
      simpa [List.isEmpty_iff] using hc
    simp [get_table_metadata, select_table_metadata, h, get_column_metadata,
      select_column_metadata, hc, hnil]
  · simp [get_table_metadata, select_table_metadata, h, get_column_metadata,
      select_column_metadata, hc]

/-- Witness for C5: a stored table with zero columns is fetched by id with
result `OK` and an empty columns subtree. -/
theorem get_table_found_witness :
    get_table_metadata ⟨⟨[⟨1, "t1"⟩], []⟩, ⟨[⟨1, "t1"⟩], []⟩, []⟩
        (TableKey.byId 1)
      = Except.ok ⟨⟨1, "t1"⟩, []⟩ := by
  have h := get_table_found ⟨⟨[⟨1, "t1"⟩], []⟩, ⟨[⟨1, "t1"⟩], []⟩, []⟩ 1
    ⟨1, "t1"⟩ (by decide)
  simpa using h

-- Helper lemmas for remove_table_metadata.

theorem delete_table_byId_ok (db₀ : DB) (i : Nat) (db : DB) (tid : Nat)
    (h : delete_table_metadata db₀ (TableKey.byId i) = Except.ok (db, tid)) :
    db.tables = db₀.tables.filter (fun r => ¬ r.id = i)
    ∧ db.columns = db₀.columns ∧ tid = i := by
  cases hf : db₀.tables.find? (fun r => r.id = i) with
  | none => simp [delete_table_metadata, hf] at h
  | some r =>
      have hrid : r.id = i := by simpa using List.find?_some hf
      simp only [delete_table_metadata, hf, Except.ok.injEq, Prod.mk.injEq]
        at h
      obtain ⟨hdb, htid⟩ := h
      subst hdb
      exact ⟨rfl, rfl, by rw [← htid, hrid]⟩

theorem delete_table_byName_ok (db₀ : DB) (n : String) (db : DB) (tid : Nat)
    (h : delete_table_metadata db₀ (TableKey.byName n) = Except.ok (db, tid)) :
    db.tables = db₀.tables.filter (fun r => ¬ r.name = n)
    ∧ db.columns = db₀.columns
    ∧ ∃ r, db₀.tables.find? (fun r => r.name = n) = some r ∧ r.id = tid := by
  cases hf : db₀.tables.find? (fun r => r.name = n) with
  | none => simp [delete_table_metadata, hf] at h
  | some r =>
      simp only [delete_table_metadata, hf, Except.ok.injEq, Prod.mk.injEq]
        at h
      obtain ⟨hdb, htid⟩ := h
      subst hdb
      exact ⟨rfl, rfl, r, rfl, htid⟩

theorem find_id_filter_byId (l : List TableRow) (i : Nat) :
    (l.filter (fun r => ¬ r.id = i)).find? (fun r => r.id = i) = none := by
  rw [List.find?_eq_none]
  intro x hx
  have hmem := List.mem_filter.mp hx
  simpa using hmem.2

theorem find_id_filter_byName (l : List TableRow) (n : String) (r : TableRow)
    (hnodup : (l.map (fun t => t.id)).Nodup)
    (hf : l.find? (fun t => t.name = n) = some r) :
    (l.filter (fun t => ¬ t.name = n)).find? (fun t => t.id = r.id)
      = none := by
  rw [List.find?_eq_none]
  intro x hx
  have hmem := (List.mem_filter.mp hx).1
  have hnot : ¬ x.name = n := by simpa using (List.mem_filter.mp hx).2
  have hrmem : r ∈ l := List.mem_of_find?_eq_some hf
  have hrname : r.name = n := by simpa using List.find?_some hf
  intro hpx
  have hxid : x.id = r.id := by simpa using hpx
  have hxr : x = r := List.inj_on_of_nodup_map hnodup hmem hrmem hxid
  exact hnot (hxr ▸ hrname)

/-- C3: `remove_table_metadata` deletes the table row, then every column row
whose `table_id` equals the removed table's id, and commits exactly when
both deletes succeed; when either delete fails it rolls back, leaving the
durable state unchanged, and returns that step's failure; after a committed
removal a get by the removed id fails with `ID_NOT_FOUND`. -/
theorem remove_table_spec (s : Session) (key : TableKey)
    (hnodup : (s.committed.tables.map (fun r => r.id)).Nodup) :
    (∀ e, delete_table_metadata s.committed key = Except.error e →
      remove_table_metadata s key
        = ⟨e, ⟨s.committed, s.committed,
            s.trace ++ [SessionEvent.beginTx, SessionEvent.rollbackTx]⟩, 0⟩)
    ∧ (∀ db tid, delete_table_metadata s.committed key = Except.ok (db, tid) →
        (db.columns.any (fun c => c.table_id = tid) = false →
          remove_table_metadata s key
            = ⟨ErrorCode.INVALID_PARAMETER,
               ⟨s.committed, s.committed,
                s.trace ++ [SessionEvent.beginTx, SessionEvent.rollbackTx]⟩,
               tid⟩)
        ∧ (db.columns.any (fun c => c.table_id = tid) = true →
          remove_table_metadata s key
            = ⟨ErrorCode.OK,
               ⟨⟨db.tables, db.columns.filter (fun c => ¬ c.table_id = tid)⟩,
                ⟨db.tables, db.columns.filter (fun c => ¬ c.table_id = tid)⟩,
                s.trace ++ [SessionEvent.beginTx, SessionEvent.commitTx]⟩,
               tid⟩
          ∧ get_table_metadata (remove_table_metadata s key).session
              (TableKey.byId tid) = Except.error ErrorCode.ID_NOT_FOUND)) := by
  constructor
  · intro e he
    simp [remove_table_metadata, Session.start_transaction, Session.rollback,
      he]
  · intro db tid hok
    constructor
    · intro hany
      simp [remove_table_metadata, Session.start_transaction,
        Session.rollback, hok, delete_column_metadata, hany]
    · intro hany
      have hrm : remove_table_metadata s key
          = ⟨ErrorCode.OK,
             ⟨⟨db.tables, db.columns.filter (fun c => ¬ c.table_id = tid)⟩,
              ⟨db.tables, db.columns.filter (fun c => ¬ c.table_id = tid)⟩,
              s.trace ++ [SessionEvent.beginTx, SessionEvent.commitTx]⟩,
             tid⟩ := by
        simp [remove_table_metadata, Session.start_transaction,
          Session.commit, hok, delete_column_metadata, hany]
      refine ⟨hrm, ?_⟩
      have hfnone : db.tables.find? (fun r => r.id = tid) = none := by
        cases key with
        | byId i =>
            obtain ⟨htab, -, htid⟩ := delete_table_byId_ok s.committed i db
              tid hok
            rw [htab, htid]
            exact find_id_filter_byId s.committed.tables i
        | byName n =>
            obtain ⟨htab, -, r, hfr, hrid⟩ := delete_table_byName_ok
              s.committed n db tid hok
            subst hrid
            rw [htab]
            exact find_id_filter_byName s.committed.tables n r hnodup hfr
        | other => simp [delete_table_metadata] at hok
      rw [hrm]
      simp [get_table_metadata, select_table_metadata, hfnone]

/-- Witness for C3: removing the only table (one column) commits, leaves an
empty durable state and a subsequent get by the removed id fails with
`ID_NOT_FOUND`. -/
theorem remove_table_spec_witness :
    remove_table_metadata
        ⟨⟨[⟨1, "t1"⟩], [⟨1, ⟨some "a", some 1, some 1, some "NO"⟩⟩]⟩,
         ⟨[⟨1, "t1"⟩], [⟨1, ⟨some "a", some 1, some 1, some "NO"⟩⟩]⟩, []⟩
        (TableKey.byId 1)
      = ⟨ErrorCode.OK, ⟨⟨[], []⟩, ⟨[], []⟩,
          [SessionEvent.beginTx, SessionEvent.commitTx]⟩, 1⟩
    ∧ get_table_metadata
        (remove_table_metadata
          ⟨⟨[⟨1, "t1"⟩], [⟨1, ⟨some "a", some 1, some 1, some "NO"⟩⟩]⟩,
           ⟨[⟨1, "t1"⟩], [⟨1, ⟨some "a", some 1, some 1, some "NO"⟩⟩]⟩, []⟩
          (TableKey.byId 1)).session (TableKey.byId 1)
      = Except.error ErrorCode.ID_NOT_FOUND := by
  have h := (remove_table_spec
    ⟨⟨[⟨1, "t1"⟩], [⟨1, ⟨some "a", some 1, some 1, some "NO"⟩⟩]⟩,
     ⟨[⟨1, "t1"⟩], [⟨1, ⟨some "a", some 1, some 1, some "NO"⟩⟩]⟩, []⟩
    (TableKey.byId 1) (by decide)).2
    ⟨[], [⟨1, ⟨some "a", some 1, some 1, some "NO"⟩⟩]⟩ 1 rfl
  have h2 := (h.2 (by decide))
  exact ⟨by simpa using h2.1, h2.2⟩

-- ===========================================================================
-- JSON index DAO (src/src/dao/json/index_dao_json.cpp)
-- ===========================================================================

/-- Modelled from the spec: sentinel for an absent numeric field
(`INVALID_VALUE`; metadata.h is not among the provided sources). -/
def INVALID_VALUE : Int := -1

/-- Modelled from the spec: sentinel for an absent object id
(`INVALID_OBJECT_ID`; metadata.h is not among the provided sources). -/
def INVALID_OBJECT_ID : Int := -1

/-- An index metadata object stored by `IndexDaoJson`: the management
fields (`format_version`, `generation`, `id`) and the `name` field are
modelled explicitly; all remaining ptree content is opaque `payload`. -/
structure IdxObj where
  format_version : Option Int
  generation : Option Int
  id : Option Int
  name : Option String
  payload : String
deriving DecidableEq, Repr

/-- A lookup key passed to the index DAO: `Object::ID` or `Object::NAME`
with its value (ptree values are strings; equality of the typed values
models the string comparison of the source). -/
inductive IdxKey where
  | keyId (v : Int)
  | keyName (v : String)
deriving DecidableEq, Repr

/-- The field comparison performed by `find_metadata_object`. -/
def idxMatches (key : IdxKey) (o : IdxObj) : Bool :=
  match key with
  | IdxKey.keyId v => o.id = some v
  | IdxKey.keyName v => o.name = some v

/-- Modelled from the spec: `Dao::get_not_found_error_code(key)` (the `Dao`
base class is not among the provided sources; spec section 7: not-found is
keyed by which lookup key was used). -/
def get_not_found_error_code (key : IdxKey) : ErrorCode :=
  match key with
  | IdxKey.keyId _ => ErrorCode.ID_NOT_FOUND
  | IdxKey.keyName _ => ErrorCode.NAME_NOT_FOUND

/-- `find_metadata_object(objects, key, value, object)` (source lines
50-69): the first stored object whose `key` field equals the value, or
`NOT_FOUND` when none matches. -/
def find_metadata_object (objects : List IdxObj) (key : IdxKey) :
    Except ErrorCode IdxObj :=
  match objects.find? (idxMatches key) with
  | some o => Except.ok o
  | none => Except.error ErrorCode.NOT_FOUND

/-- `delete_metadata_object(objects, key, value, object_id)` (source lines
82-127): erase the first object matching the key and report its id; an
object without an id is `INTERNAL_ERROR`; no match yields the key's
not-found error (the out id is modelled as 0 when the source leaves the out
parameter unset). -/
def delete_metadata_object (key : IdxKey) :
    List IdxObj → ErrorCode × List IdxObj × Int
  | [] => (get_not_found_error_code key, [], 0)
  | o :: rest =>
    match o.id with
    | none => (ErrorCode.INTERNAL_ERROR, o :: rest, 0)
    | some i =>
      match key with
      | IdxKey.keyId v =>
          if i = v then (ErrorCode.OK, rest, i)
          else
            match delete_metadata_object key rest with
            | (e, rest', oid) => (e, o :: rest', oid)
      | IdxKey.keyName v =>
          if o.name = some v then (ErrorCode.OK, rest, i)
          else
            match delete_metadata_object key rest with
            | (e, rest', oid) => (e, o :: rest', oid)

/-- `IndexDaoJson::update(key, value, object)` (source lines 294-332) on
the loaded session contents.

Mirrors the source: find the stored record (a miss sets the key's
not-found error but does not return), remove it via `IndexDaoJson::remove`
(result ignored), copy `format_version`/`generation`/`id` from the found
record — with the `INVALID_VALUE`/`INVALID_OBJECT_ID` sentinels when absent
— into a copy of the replacement object, append that copy to the root node
and return the earlier error.  Returns (error, resulting contents). -/
def IndexDaoJson.update (contents : List IdxObj) (key : IdxKey)
    (object : IdxObj) : ErrorCode × List IdxObj :=
  let fres := find_metadata_object contents key
  let error :=
    match fres with
    | Except.ok _ => ErrorCode.OK
    | Except.error _ => get_not_found_error_code key
  let temp_obj :=
    match fres with
    | Except.ok o => o
    | Except.error _ => ⟨none, none, none, none, ""⟩
  let removed := (delete_metadata_object key contents).2.1
  let newObj : IdxObj :=
    { object with
        format_version := some (temp_obj.format_version.getD INVALID_VALUE),
        generation := some (temp_obj.generation.getD INVALID_VALUE),
        id := some (temp_obj.id.getD INVALID_OBJECT_ID) }
  (error, removed ++ [newObj])

/-- C8 (code bug): `IndexDaoJson::update` with a key that matches no stored
record returns the key-specific not-found error, yet does NOT leave the
stored collection unchanged: the missing early return after the not-found
classification lets the function append the replacement object, stamped
with the sentinel management fields, to the in-memory collection. -/
theorem index_update_notfound_mutates :
    IndexDaoJson.update [] (IdxKey.keyId 1) ⟨none, none, none, some "i1", "p"⟩
      = (ErrorCode.ID_NOT_FOUND,
         [⟨some INVALID_VALUE, some INVALID_VALUE, some INVALID_OBJECT_ID,
           some "i1", "p"⟩]) := rfl

-- ===========================================================================
-- PostgreSQL statistics DAO
-- (src/metadata-manager/src/dao/postgresql/statistics_dao.cpp)
-- ===========================================================================

/-- A raw row of the column statistics table as returned by the prepared
SELECT statements: the typed key columns and the optional statistics
payload text (`NULL` payload is `none`). -/
structure StatRow where
  table_id : Int
  ordinal_position : Int
  column_statistic : Option String
deriving DecidableEq, Repr

/-- The decoded `ColumnStatistic` entity (entity/column_statistic.h, with
the payload tree kept as its opaque text). -/
structure ColumnStatistic where
  table_id : Int
  ordinal_position : Int
  column_statistic : Option String
deriving DecidableEq, Repr

/-- `StatisticsDAO::get_column_statistic_from_p_gresult` (source lines
458-499) on a typed row: decoding the typed key columns and the payload of
a well-formed row is total (the string/JSON parse utilities are external
collaborators, spec section 1). -/
def get_column_statistic_from_p_gresult (r : StatRow) : ColumnStatistic :=
  ⟨r.table_id, r.ordinal_position, r.column_statistic⟩

/-- `StatisticsDAO::select_one_column_statistic_by_table_id_column_ordinal_position`
(source lines 272-306).  `query` is the outcome of
`DbcUtils::exec_prepared`: exactly one returned row is decoded; any other
row count is `INVALID_PARAMETER`. -/
def select_one_column_statistic
    (query : Except ErrorCode (List StatRow)) :
    Except ErrorCode ColumnStatistic :=
  match query with
  | Except.error e => Except.error e
  | Except.ok rows =>
    match rows with
    | [r] => Except.ok (get_column_statistic_from_p_gresult r)
    | _ => Except.error ErrorCode.INVALID_PARAMETER

/-- `StatisticsDAO::select_all_column_statistic_by_table_id` (source lines
318-359): zero returned rows is `INVALID_PARAMETER`; otherwise every row
is decoded (the source collects them keyed by ordinal position; modelled
as the decoded rows in query order). -/
def select_all_column_statistic
    (query : Except ErrorCode (List StatRow)) :
    Except ErrorCode (List ColumnStatistic) :=
  match query with
  | Except.error e => Except.error e
  | Except.ok rows =>
    if rows.length ≤ 0 then Except.error ErrorCode.INVALID_PARAMETER
    else Except.ok (rows.map get_column_statistic_from_p_gresult)

/-- C9: the statistics select-by-key returns one decoded row exactly when
the query yields exactly one row and `INVALID_PARAMETER` for any other row
count; the select of all statistics of a table returns `INVALID_PARAMETER`
when the query yields zero rows. -/
theorem statistics_select_row_count_spec (rows : List StatRow) :
    ((∃ c, select_one_column_statistic (Except.ok rows) = Except.ok c)
      ↔ rows.length = 1)
    ∧ (rows.length ≠ 1 →
        select_one_column_statistic (Except.ok rows)
          = Except.error ErrorCode.INVALID_PARAMETER)
    ∧ (rows = [] →
        select_all_column_statistic (Except.ok rows)
          = Except.error ErrorCode.INVALID_PARAMETER) := by
  cases rows with
  | nil => simp [select_one_column_statistic, select_all_column_statistic]
  | cons r rest =>
      cases rest with
      | nil => simp [select_one_column_statistic, select_all_column_statistic]
      | cons r2 rest2 =>
          simp [select_one_column_statistic, select_all_column_statistic]

/-- Witness for C9 at concrete inputs: a one-row query is decoded, an
empty query is `INVALID_PARAMETER` on both selects. -/
theorem statistics_select_row_count_spec_witness :
    (∃ c, select_one_column_statistic
        (Except.ok [(⟨1, 1, some "s"⟩ : StatRow)]) = Except.ok c)
    ∧ select_one_column_statistic (Except.ok ([] : List StatRow))
        = Except.error ErrorCode.INVALID_PARAMETER
    ∧ select_all_column_statistic (Except.ok ([] : List StatRow))
        = Except.error ErrorCode.INVALID_PARAMETER :=
  ⟨(statistics_select_row_count_spec [⟨1, 1, some "s"⟩]).1.mpr rfl,
   (statistics_select_row_count_spec ([] : List StatRow)).2.1 (by decide),
   (statistics_select_row_count_spec ([] : List StatRow)).2.2 rfl⟩
